import Mathlib

/-!
Shallow embedding of the geotrace/model storage layer (Go, package `model`).

The repository wraps a MongoDB session (`DB` holds a `*mgo.Session` and a
database name) and exposes per-entity repositories (Users, Devices, Events,
Places).  Every operation copies the session, runs one store primitive
(find / insert / update / remove / distinct) against a named collection and
closes the copy.  We model:

  * the four entity structs field by field (bson-relevant fields kept; the
    Go `float64` accuracy is carried as an `Int` payload value since no
    code path computes with it);
  * the opaque collaborators — `uid.New`, `bson.NewObjectId`,
    `geo.Circle.Geo` / `geo.Polygon.Geo` — as injective symbolic
    constructors threaded through an explicit counter state;
  * the store as in-memory lists of documents per collection, with
    `Find(...).One`, `Find(...).All`, `Insert`, `UpdateId`, `Remove` and
    `Distinct` as list operations; a mongo projection `Select({f: 0, ...})`
    decodes the document with the excluded fields left at their zero value;
  * the session lifecycle: `session.Copy()` and `session.Close()` are
    counted in `SessionState.openSessions` so that lease balance on each
    return path is a provable statement.

Each repository method is translated statement by statement from the Go
source, keeping the source order (validation, id generation, scope
overwrite, session copy, store call, session close).
-/

set_option autoImplicit false

namespace GeoTrace

/-- Password is the bcrypt digest type (`type Password []byte` in Go).  The
digest bytes are opaque here; the zero value (absent / projected-away field)
is the empty string. -/
abbrev Password := String

/-- Point models `geo.Point` (a lon/lat pair); its numeric content is opaque
to this layer, so integer coordinates suffice. -/
structure Point where
  lon : Int
  lat : Int
deriving DecidableEq, Repr

/-- Circle models `geo.Circle`: a center point and a radius in meters. -/
structure Circle where
  center : Point
  radius : Int
deriving DecidableEq, Repr

/-- Polygon models `geo.Polygon`: an ordered list of points. -/
structure Polygon where
  points : List Point
deriving DecidableEq, Repr

/-- GeoJSON value stored in the `geo` field of a place document.  The
conversion of a circle into its polygonal approximation
(`geo.Circle.Geo()`) is an opaque collaborator, so we keep it symbolic:
`circlePoly c` stands for the polygon approximating `c`, and `poly p` is
the unchanged copy of a polygon (`geo.Polygon.Geo()`). -/
inductive GeoJSON where
  | circlePoly (c : Circle) : GeoJSON
  | poly (p : Polygon) : GeoJSON
deriving DecidableEq, Repr

/-- Circle.geo embeds `func (c Circle) Geo()`: the opaque circle-to-polygon
lowering. -/
def Circle.geo (c : Circle) : GeoJSON := GeoJSON.circlePoly c

/-- Polygon.geo embeds `func (p Polygon) Geo()`: the polygon is copied into
the index representation without transformation. -/
def Polygon.geo (p : Polygon) : GeoJSON := GeoJSON.poly p

/-- User mirrors `type User struct` in data.go: `Login` is the bson `_id`,
`GroupID` the bson `groupId`, `Name` the bson `name`, `Password` the bson
`password` (json-suppressed). -/
structure User where
  login : String
  groupID : String
  name : String
  password : Password
deriving DecidableEq, Repr

/-- Device mirrors `type Device struct` in device.go: `ID` is the bson
`_id`, then `groupId`, `name`, `type`, `password`. -/
structure Device where
  id : String
  groupID : String
  name : String
  type : String
  password : Password
deriving DecidableEq, Repr

/-- Event mirrors `type Event struct` in event.go.  `ID` is a
`bson.ObjectId`, which in Go is a string of 12 raw bytes; we keep it as a
string.  `Time` is a `time.Time` modelled as a number of time units, with 0
as the Go zero time.  `Accuracy` (Go `float64`) is carried as an `Int`
payload since no code path computes with it; `Data` is the open key-value
bag with opaque values. -/
structure Event where
  id : String
  deviceID : String
  groupID : String
  time : Nat
  type : String
  location : Option Point
  accuracy : Int
  power : Nat
  emoji : Nat
  comment : String
  data : List (String × String)
deriving DecidableEq, Repr

/-- Place mirrors `type Place struct` in place.go: `_id`, `groupId`,
`name`, `circle`, `polygon` and the derived `geo` field (Go
`interface\x7b\x7d`, nil until `prepare` fills it). -/
structure Place where
  id : String
  groupID : String
  name : String
  circle : Option Circle
  polygon : Option Polygon
  geo : Option GeoJSON
deriving DecidableEq, Repr

/-- DBError enumerates the error values the embedded operations return:
`mgo.ErrNotFound`, `ErrBadObjectId` (db.go), `ErrBadPlaceData` (place.go)
and the duplicate-key error of a mongo insert.  There is no
forbidden/unauthorized error value anywhere in the source. -/
inductive DBError where
  | notFound
  | badObjectId
  | badPlaceData
  | duplicateKey
deriving DecidableEq, Repr

/-- Seq is a transparent alias for `List`, for use in signatures of
repository methods whose entity namespace also holds a method named List
(which would otherwise shadow the type). -/
abbrev Seq := List

/-- Store models the four named collections of the logical database as
in-memory document lists (the mongo driver is the opaque collaborator;
find/insert/update/distinct become list operations below). -/
structure Store where
  users : List User
  devices : List Device
  events : List Event
  places : List Place
deriving DecidableEq, Repr

/-- SessionState is the explicit state threaded through every embedded
repository call: the store contents, the number of session copies currently
open (`session.Copy()` increments, `session.Close()` decrements — this
makes lease balance on each return path provable), the counters backing the
opaque generators `uid.New` and `bson.NewObjectId`, and the current server
clock `now` (available to the code as `time.Now()`; an operation that never
reads it demonstrably ignores server time). -/
structure SessionState where
  store : Store
  openSessions : Nat
  uidCounter : Nat
  oidCounter : Nat
  now : Nat
deriving DecidableEq, Repr

/-- sessionCopy embeds `session := db.session.Copy()`. -/
def sessionCopy (s : SessionState) : SessionState :=
  { s with openSessions := s.openSessions + 1 }

/-- sessionClose embeds `session.Close()`. -/
def sessionClose (s : SessionState) : SessionState :=
  { s with openSessions := s.openSessions - 1 }

/-- uidNew models the opaque generator `uid.New()`: a fresh nonempty
identifier derived from the threaded counter. -/
def uidNew (n : Nat) : String := "uid" ++ toString n

/-- oidValid embeds `bson.ObjectId.Valid()`: a `bson.ObjectId` is a string
of raw bytes and is valid exactly when it holds 12 of them. -/
def oidValid (id : String) : Bool := id.length == 12

/-- newObjectId models the opaque generator `bson.NewObjectId()`: a fresh
12-byte identifier derived from the threaded counter. -/
def newObjectId (n : Nat) : String :=
  String.mk ('k' :: Char.ofNat (n % 256) :: List.replicate 10 'k')

/-- isHexChar recognises one hexadecimal digit. -/
def isHexChar (c : Char) : Bool :=
  c.isDigit || (('a' ≤ c) && (c ≤ 'f')) || (('A' ≤ c) && (c ≤ 'F'))

/-- isObjectIdHex embeds `bson.IsObjectIdHex`: 24 characters, all hex. -/
def isObjectIdHex (s : String) : Bool :=
  s.length == 24 && s.data.all isHexChar

/-- hexVal gives the value of one hex digit. -/
def hexVal (c : Char) : Nat :=
  if c.isDigit then c.toNat - 48
  else if ('a' ≤ c) && (c ≤ 'f') then c.toNat - 97 + 10
  else c.toNat - 65 + 10

/-- hexDecode turns pairs of hex digits into raw bytes. -/
def hexDecode : List Char → List Char
  | hi :: lo :: rest => Char.ofNat (16 * hexVal hi + hexVal lo) :: hexDecode rest
  | _ => []

/-- objectIdHex embeds `bson.ObjectIdHex`: decode the 24-digit hex string
into the 12 raw bytes of the ObjectId. -/
def objectIdHex (s : String) : String := String.mk (hexDecode s.data)

/-- findOne embeds `coll.Find(query).One(&doc)`: the first document
matching the query, or `mgo.ErrNotFound`. -/
def findOne {α : Type} (p : α → Bool) (l : List α) : Except DBError α :=
  match l.find? p with
  | some a => Except.ok a
  | none => Except.error DBError.notFound

/-- insertDoc embeds `coll.Insert(doc)` for one document: a mongo insert
fails with a duplicate-key error when the primary key `_id` is already
present, and appends the document otherwise. -/
def insertDoc {α : Type} (key : α → String) (doc : α) (l : List α) :
    Except DBError (List α) :=
  if l.any (fun x => key x == key doc) then Except.error DBError.duplicateKey
  else Except.ok (l ++ [doc])

/-- updateById embeds `coll.UpdateId(id, doc)`: replace the document whose
`_id` matches, or fail with `mgo.ErrNotFound` when none does (mongo update
is not an upsert). -/
def updateById {α : Type} (key : α → String) (id : String) (doc : α)
    (l : List α) : Except DBError (List α) :=
  if l.any (fun x => key x == id) then
    Except.ok (l.map (fun x => if key x == id then doc else x))
  else Except.error DBError.notFound

/-- Device.select embeds decoding a device document through a mongo
projection `Select(bson.M\x7bf: 0, ...\x7d)` given the list of excluded
bson keys: excluded fields come back at their Go zero value. -/
def Device.select (excl : List String) (d : Device) : Device :=
  { id := if excl.contains "_id" then "" else d.id
    groupID := if excl.contains "groupId" then "" else d.groupID
    name := if excl.contains "name" then "" else d.name
    type := if excl.contains "type" then "" else d.type
    password := if excl.contains "password" then "" else d.password }

/-- User.select is the user-document analogue of `Device.select`. -/
def User.select (excl : List String) (u : User) : User :=
  { login := if excl.contains "_id" then "" else u.login
    groupID := if excl.contains "groupId" then "" else u.groupID
    name := if excl.contains "name" then "" else u.name
    password := if excl.contains "password" then "" else u.password }

/-- Place.select is the place-document analogue of `Device.select`. -/
def Place.select (excl : List String) (p : Place) : Place :=
  { id := if excl.contains "_id" then "" else p.id
    groupID := if excl.contains "groupId" then "" else p.groupID
    name := if excl.contains "name" then "" else p.name
    circle := if excl.contains "circle" then none else p.circle
    polygon := if excl.contains "polygon" then none else p.polygon
    geo := if excl.contains "geo" then none else p.geo }

/-- Event.select is the event-document analogue of `Device.select`. -/
def Event.select (excl : List String) (e : Event) : Event :=
  { id := if excl.contains "_id" then "" else e.id
    deviceID := if excl.contains "deviceId" then "" else e.deviceID
    groupID := if excl.contains "groupId" then "" else e.groupID
    time := if excl.contains "time" then 0 else e.time
    type := if excl.contains "type" then "" else e.type
    location := if excl.contains "location" then none else e.location
    accuracy := if excl.contains "accuracy" then 0 else e.accuracy
    power := if excl.contains "power" then 0 else e.power
    emoji := if excl.contains "emoji" then 0 else e.emoji
    comment := if excl.contains "comment" then "" else e.comment
    data := if excl.contains "data" then [] else e.data }

/-- Event.bsonString reads a string-valued field of a stored event document
by its bson key, as the mongo server does when evaluating `Distinct(key)`.
The keys are the bson tags of the Event struct (`_id`, `deviceId`,
`groupId`, `type`, `comment`); any other key names no string field of the
document and yields nothing.  Mongo field keys are case sensitive. -/
def Event.bsonString (e : Event) (key : String) : Option String :=
  if key == "_id" then some e.id
  else if key == "deviceId" then some e.deviceID
  else if key == "groupId" then some e.groupID
  else if key == "type" then some e.type
  else if key == "comment" then some e.comment
  else none

/-- distinctStrings embeds `coll.Find(query).Distinct(key, &result)` over
the documents already filtered by the query: the values of the named field
in those documents, without duplicates. -/
def distinctStrings (key : String) (l : List Event) : List String :=
  (l.filterMap (fun e => e.bsonString key)).dedup

/-- Place.prepare embeds `func (p *Place) prepare() (err error)` from
place.go verbatim: circle set → polygon cleared and `geo` filled from the
circle; else polygon set → circle cleared and `geo` filled from the
polygon; else `ErrBadPlaceData`.  The Go method mutates `p` in place and
returns only the error; here the updated place is returned on success. -/
def Place.prepare (p : Place) : Except DBError Place :=
  match p.circle with
  | some c => Except.ok { p with polygon := none, geo := some c.geo }
  | none =>
    match p.polygon with
    | some poly => Except.ok { p with circle := none, geo := some poly.geo }
    | none => Except.error DBError.badPlaceData

/-- DBDevices.Get embeds `func (db *DBDevices) Get(groupId, id string)`
from device.go: copy session, find on the conjunction of `_id` and
`groupId`, project away `groupId` and `password`, close session.  The
variants `Devices.Get` and `DB.DeviceGet` elsewhere in the repository are
textually the same operation. -/
def DBDevices.Get (groupId id : String) (s : SessionState) :
    Except DBError Device × SessionState :=
  let s1 := sessionCopy s
  let r := (findOne (fun d => d.id == id && d.groupID == groupId)
      s1.store.devices).map (Device.select ["groupId", "password"])
  (r, sessionClose s1)

/-- DBDevices.List embeds `func (db *DBDevices) List(groupID string)` from
device.go: filter on `groupId` only, project away `groupId` and
`password`. -/
def DBDevices.List (groupID : String) (s : SessionState) :
    List Device × SessionState :=
  let s1 := sessionCopy s
  let r := (s1.store.devices.filter (fun d => d.groupID == groupID)).map
      (Device.select ["groupId", "password"])
  (r, sessionClose s1)

/-- DB.DeviceList embeds `func (db *DB) DeviceList(groupID string)` from
the `DB`-method revision of the device file: same filter as
`DBDevices.List`, but the projection is `Select(bson.M\x7b"groupId": 0\x7d)`
— only `groupId` is excluded there. -/
def DB.DeviceList (groupID : String) (s : SessionState) :
    List Device × SessionState :=
  let s1 := sessionCopy s
  let r := (s1.store.devices.filter (fun d => d.groupID == groupID)).map
      (Device.select ["groupId"])
  (r, sessionClose s1)

/-- DBDevices.Create embeds `func (db *DBDevices) Create(groupId string,
device *Device)` from device.go: generate an id when empty, overwrite the
group field with the argument, then insert. -/
def DBDevices.Create (groupId : String) (device : Device)
    (s : SessionState) : Except DBError Unit × SessionState :=
  let (device, s) :=
    if device.id == "" then
      ({ device with id := uidNew s.uidCounter },
       { s with uidCounter := s.uidCounter + 1 })
    else (device, s)
  let device := { device with groupID := groupId }
  let s1 := sessionCopy s
  match insertDoc Device.id device s1.store.devices with
  | Except.ok ds =>
    (Except.ok (), sessionClose { s1 with store := { s1.store with devices := ds } })
  | Except.error e => (Except.error e, sessionClose s1)

/-- Devices.Login embeds `func (db *Devices) Login(id string)` from the
device file: `coll.FindId(id).One(device)` — keyed by `_id` alone, no
group in the query and no projection, so the stored document comes back
whole, password digest included. -/
def Devices.Login (id : String) (s : SessionState) :
    Except DBError Device × SessionState :=
  let s1 := sessionCopy s
  let r := findOne (fun d => d.id == id) s1.store.devices
  (r, sessionClose s1)

/-- Users.Login embeds `func (db *Users) Login(userID string)`:
`coll.FindId(userID).One(&user)` — keyed by `_id` (the login) alone, no
group in the query and no projection. -/
def Users.Login (userID : String) (s : SessionState) :
    Except DBError User × SessionState :=
  let s1 := sessionCopy s
  let r := findOne (fun u => u.login == userID) s1.store.users
  (r, sessionClose s1)

/-- Users.Create embeds `func (db *Users) Create(user *User)`: the
signature has no group argument; the login is generated when empty and the
user document is inserted exactly as it arrived — in particular its
`GroupID` field is not overwritten before the insert. -/
def Users.Create (user : User) (s : SessionState) :
    Except DBError Unit × SessionState :=
  let (user, s) :=
    if user.login == "" then
      ({ user with login := uidNew s.uidCounter },
       { s with uidCounter := s.uidCounter + 1 })
    else (user, s)
  let s1 := sessionCopy s
  match insertDoc User.login user s1.store.users with
  | Except.ok us =>
    (Except.ok (), sessionClose { s1 with store := { s1.store with users := us } })
  | Except.error e => (Except.error e, sessionClose s1)

/-- DB.UserCreate embeds `func (db *DB) UserCreate(user *User)` from the
`DB`-method revision of the user file: the same operation as Users.Create
— again no group argument in the signature, the login generated when
empty, and the arriving GroupID field persisted without overwrite. -/
def DB.UserCreate (user : User) (s : SessionState) :
    Except DBError Unit × SessionState :=
  let (user, s) :=
    if user.login == "" then
      ({ user with login := uidNew s.uidCounter },
       { s with uidCounter := s.uidCounter + 1 })
    else (user, s)
  let s1 := sessionCopy s
  match insertDoc User.login user s1.store.users with
  | Except.ok us =>
    (Except.ok (), sessionClose { s1 with store := { s1.store with users := us } })
  | Except.error e => (Except.error e, sessionClose s1)

/-- Modelled from the spec: no group-scoped `get` for Users exists under
src (the user files define only Login, List, Create, Update, Delete); the
spec (§4.2) prescribes for every entity repository a
`get(groupID, id) -> Entity | fails with NotFound` whose store query
conjunctively filters on the primary id (the login) AND `groupID`, and
whose projection omits secret and group-identifying fields.  This
definition follows those words, in the shape of the sibling gets. -/
def Users.Get (groupId id : String) (s : SessionState) :
    Except DBError User × SessionState :=
  let s1 := sessionCopy s
  let r := (findOne (fun u => u.login == id && u.groupID == groupId)
      s1.store.users).map (User.select ["groupId", "password"])
  (r, sessionClose s1)

/-- DB.PlaceGet embeds `func (db *DB) PlaceGet(groupId, id string)` from
place.go: find on the conjunction of `_id` and `groupId`, project away
`groupId` and `geo`.  `Places.Get` in the other revision is textually the
same operation. -/
def DB.PlaceGet (groupId id : String) (s : SessionState) :
    Except DBError Place × SessionState :=
  let s1 := sessionCopy s
  let r := (findOne (fun p => p.id == id && p.groupID == groupId)
      s1.store.places).map (Place.select ["groupId", "geo"])
  (r, sessionClose s1)

/-- DB.PlaceCreate embeds `func (db *DB) PlaceCreate(groupId string, place
*Place)` from place.go: run `prepare` and return its error before anything
else (no session is copied and the store is untouched on that path), then
generate an id when empty, overwrite the group field with the argument,
insert, close.  `Places.Create` in the other revision is textually the
same operation. -/
def DB.PlaceCreate (groupId : String) (place : Place) (s : SessionState) :
    Except DBError Unit × SessionState :=
  match place.prepare with
  | Except.error e => (Except.error e, s)
  | Except.ok place =>
    let (place, s) :=
      if place.id == "" then
        ({ place with id := uidNew s.uidCounter },
         { s with uidCounter := s.uidCounter + 1 })
      else (place, s)
    let place := { place with groupID := groupId }
    let s1 := sessionCopy s
    match insertDoc Place.id place s1.store.places with
    | Except.ok ps =>
      (Except.ok (), sessionClose { s1 with store := { s1.store with places := ps } })
    | Except.error e => (Except.error e, sessionClose s1)

/-- Places.Update embeds `func (db *Places) Update(groupId string, place
*Place)`: run `prepare` and return its error first (store untouched),
overwrite the group field, then `UpdateId(place.ID, place)`.
`DB.PlaceUpdate` in the other revision is textually the same operation. -/
def Places.Update (groupId : String) (place : Place) (s : SessionState) :
    Except DBError Unit × SessionState :=
  match place.prepare with
  | Except.error e => (Except.error e, s)
  | Except.ok place =>
    let place := { place with groupID := groupId }
    let s1 := sessionCopy s
    match updateById Place.id place.id place s1.store.places with
    | Except.ok ps =>
      (Except.ok (), sessionClose { s1 with store := { s1.store with places := ps } })
    | Except.error e => (Except.error e, sessionClose s1)

/-- Events.Get embeds `func (db *Events) Get(groupId, deviceId, id
string)` from event.go, keeping the source order: the session is copied
first, THEN the id is validated with `bson.IsObjectIdHex`; on an invalid
id the function returns `ErrBadObjectId` without reaching the
`session.Close()` at the end, so that session copy stays open.  On a valid
id the find conjoins `_id`, `groupId` and `deviceId` and the projection
excludes `groupId` and `deviceId`. -/
def Events.Get (groupId deviceId id : String) (s : SessionState) :
    Except DBError Event × SessionState :=
  let s1 := sessionCopy s
  if !(isObjectIdHex id) then
    (Except.error DBError.badObjectId, s1)
  else
    let objID := objectIdHex id
    let r := (findOne
        (fun e => e.id == objID && e.groupID == groupId && e.deviceID == deviceId)
        s1.store.events).map (Event.select ["groupId", "deviceId"])
    (r, sessionClose s1)

/-- Events.List embeds `func (db *Events) List(groupID, deviceId string)`:
filter on `groupId` and `deviceId`, project away both. -/
def Events.List (groupID deviceId : String) (s : SessionState) :
    List Event × SessionState :=
  let s1 := sessionCopy s
  let r := (s1.store.events.filter
      (fun e => e.groupID == groupID && e.deviceID == deviceId)).map
      (Event.select ["groupId", "deviceId"])
  (r, sessionClose s1)

/-- Events.Devices embeds `func (db *Events) Devices(groupID string)`:
`coll.Find(bson.M\x7b"groupId": groupID\x7d).Distinct("deviceID",
&deviceIds)`.  The distinct key string `"deviceID"` is copied verbatim
from the source; the bson tag of the DeviceID field of the stored
documents is `deviceId`. -/
def Events.Devices (groupID : String) (s : SessionState) :
    Seq String × SessionState :=
  let s1 := sessionCopy s
  let r := distinctStrings "deviceID"
      (s1.store.events.filter (fun e => e.groupID == groupID))
  (r, sessionClose s1)

/-- prepareEvents embeds the loop at the head of `func (db *Events)
Create(groupId, deviceId string, events ...*Event)`: for each event in
order, assign a fresh ObjectId when the carried one is not valid, then
overwrite `GroupID` and `DeviceID` with the arguments.  No other field is
touched — in particular `event.Time` is left exactly as it arrived. -/
def prepareEvents (groupId deviceId : String) (oidCounter : Nat) :
    List Event → List Event × Nat
  | [] => ([], oidCounter)
  | e :: rest =>
    let (e, c) :=
      if oidValid e.id then (e, oidCounter)
      else ({ e with id := newObjectId oidCounter }, oidCounter + 1)
    let e := { e with groupID := groupId, deviceID := deviceId }
    let (restOut, cOut) := prepareEvents groupId deviceId c rest
    (e :: restOut, cOut)

/-- insertManyEvents embeds the variadic `coll.Insert(objs...)`: mgo sends
the batch and stops at the first failing document, so the documents before
it stay inserted and one error is returned for the whole call. -/
def insertManyEvents (docs : List Event) (l : List Event) :
    List Event × Option DBError :=
  match docs with
  | [] => (l, none)
  | d :: rest =>
    match insertDoc Event.id d l with
    | Except.ok l2 => insertManyEvents rest l2
    | Except.error e => (l, some e)

/-- Events.Create embeds `func (db *Events) Create(groupId, deviceId
string, events ...*Event)`: prepare the batch (ids and scope fields only),
copy the session, run one batched insert, close the session. -/
def Events.Create (groupId deviceId : String) (events : Seq Event)
    (s : SessionState) : Except DBError Unit × SessionState :=
  let (objs, c) := prepareEvents groupId deviceId s.oidCounter events
  let s := { s with oidCounter := c }
  let s1 := sessionCopy s
  let (es, errOpt) := insertManyEvents objs s1.store.events
  let s2 := { s1 with store := { s1.store with events := es } }
  match errOpt with
  | none => (Except.ok (), sessionClose s2)
  | some e => (Except.error e, sessionClose s2)

/-! Concrete fixtures used by witnesses and counterexamples. -/

/-- emptyStore is a store with all four collections empty. -/
def emptyStore : Store := { users := [], devices := [], events := [], places := [] }

/-- sEmpty is a quiescent session state over the empty store. -/
def sEmpty : SessionState :=
  { store := emptyStore, openSessions := 0, uidCounter := 0, oidCounter := 0, now := 0 }

/-- circleW is a sample circle. -/
def circleW : Circle := { center := { lon := 55, lat := 88 }, radius := 500 }

/-- polyW is a sample polygon. -/
def polyW : Polygon := { points := [{ lon := 0, lat := 0 }, { lon := 1, lat := 0 }, { lon := 0, lat := 1 }] }

/-- placeBoth is a place arriving with both circle and polygon set. -/
def placeBoth : Place :=
  { id := "p1", groupID := "stale", name := "home", circle := some circleW,
    polygon := some polyW, geo := none }

/-- placeNone is a place arriving with neither circle nor polygon. -/
def placeNone : Place :=
  { id := "p2", groupID := "stale", name := "void", circle := none,
    polygon := none, geo := none }

/-- placeBothPrepared is placeBoth after one application of prepare. -/
def placeBothPrepared : Place := { placeBoth with polygon := none, geo := some circleW.geo }

/-- hex24 is a 24-digit hex string, a well-formed ObjectId literal. -/
def hex24 : String := "aaaaaaaaaaaaaaaaaaaaaaaa"

/-- userG1 is a user stored under group g1. -/
def userG1 : User := { login := "a@x.com", groupID := "g1", name := "Ann", password := "bcrypt-user" }

/-- deviceG1 is a device stored under group g1. -/
def deviceG1 : Device := { id := "d1", groupID := "g1", name := "phone", type := "gps", password := "bcrypt-dev" }

/-- placeG1 is a place stored under group g1. -/
def placeG1 : Place :=
  { id := "p1", groupID := "g1", name := "old-home", circle := some circleW,
    polygon := none, geo := some circleW.geo }

/-- eventG1 is an event stored under group g1 whose id is the decoded form
of hex24. -/
def eventG1 : Event :=
  { id := objectIdHex hex24, deviceID := "d1", groupID := "g1", time := 3,
    type := "Arrive", location := none, accuracy := 10, power := 80,
    emoji := 0, comment := "", data := [] }

/-- storeG1 holds one document of each entity type, all under group g1. -/
def storeG1 : Store :=
  { users := [userG1], devices := [deviceG1], events := [eventG1], places := [placeG1] }

/-- sG1 is a quiescent session state over storeG1. -/
def sG1 : SessionState :=
  { store := storeG1, openSessions := 0, uidCounter := 0, oidCounter := 0, now := 0 }

/-- userSpoof is a user object arriving at Create with a groupID already
set by the caller. -/
def userSpoof : User := { login := "b@x.com", groupID := "spoofed", name := "", password := "h" }

/-- userOther is identical to userSpoof except for the group identifier
it arrives with. -/
def userOther : User := { userSpoof with groupID := "other" }

/-- deviceSpoof is a device object arriving at Create with a stale groupID
set by the caller. -/
def deviceSpoof : Device := { id := "d9", groupID := "stale", name := "", type := "", password := "h" }

/-- eventNoTime is an event arriving at Create with the zero timestamp and
no id. -/
def eventNoTime : Event :=
  { id := "", deviceID := "", groupID := "", time := 0, type := "Arrive",
    location := none, accuracy := 0, power := 0, emoji := 0, comment := "", data := [] }

/-- sNow is a quiescent empty-store state whose server clock reads 777. -/
def sNow : SessionState :=
  { store := emptyStore, openSessions := 0, uidCounter := 0, oidCounter := 0, now := 777 }

/-- placeCreatedW is the document DB.PlaceCreate writes for placeBoth
under group g1. -/
def placeCreatedW : Place := { placeBothPrepared with groupID := "g1" }

/-- deviceCreatedW is the document DBDevices.Create writes for deviceSpoof
under group g1. -/
def deviceCreatedW : Device := { deviceSpoof with groupID := "g1" }

/-- eventCreatedW is the document Events.Create writes for eventNoTime
under group g1 and device d1. -/
def eventCreatedW : Event :=
  { eventNoTime with id := newObjectId 0, groupID := "g1", deviceID := "d1" }

/-! Helper lemmas shared across the claim theorems. -/

/-- findOne returns NotFound when the query matches no document. -/
theorem findOne_none_of_false {α : Type} (p : α → Bool) (l : List α)
    (h : ∀ a ∈ l, p a = false) :
    findOne p l = Except.error DBError.notFound := by
  unfold findOne
  have : l.find? p = none := by
    rw [List.find?_eq_none]
    intro a ha
    simp [h a ha]
  rw [this]

/-- insertDoc: a document of the output list that was not in the input
list is the inserted document. -/
theorem mem_insertDoc_new {α : Type} (key : α → String) (doc : α)
    (l l2 : List α) (h : insertDoc key doc l = Except.ok l2)
    (d : α) (hd : d ∈ l2) (hnd : d ∉ l) : d = doc := by
  unfold insertDoc at h
  split at h
  · exact absurd h (by simp)
  · rw [Except.ok.injEq] at h
    subst h
    rcases List.mem_append.mp hd with hl | hr
    · exact absurd hl hnd
    · simpa using hr

/-- updateById: a document of the output list that was not in the input
list is the replacement document. -/
theorem mem_updateById_new {α : Type} (key : α → String) (id : String)
    (doc : α) (l l2 : List α) (h : updateById key id doc l = Except.ok l2)
    (d : α) (hd : d ∈ l2) (hnd : d ∉ l) : d = doc := by
  unfold updateById at h
  split at h
  · rw [Except.ok.injEq] at h
    subst h
    rcases List.mem_map.mp hd with ⟨x, hx, hfx⟩
    by_cases hk : (key x == id) = true
    · rw [if_pos hk] at hfx
      exact hfx.symm
    · rw [if_neg hk] at hfx
      exact absurd (hfx ▸ hx) hnd
  · exact absurd h (by simp)

/-- insertManyEvents only ever adds documents drawn from the batch. -/
theorem mem_insertManyEvents {docs l : List Event} {d : Event}
    (hd : d ∈ (insertManyEvents docs l).1) : d ∈ l ∨ d ∈ docs := by
  induction docs generalizing l with
  | nil => exact Or.inl hd
  | cons x rest ih =>
    unfold insertManyEvents at hd
    rcases hins : insertDoc Event.id x l with l2 | l2
    · rw [hins] at hd
      exact Or.inl hd
    · rw [hins] at hd
      rcases ih hd with hl | hr
      · have hx : d ∈ l ∨ d = x := by
          have : l2 = l ++ [x] := by
            unfold insertDoc at hins
            split at hins
            · exact absurd hins (by simp)
            · rw [Except.ok.injEq] at hins
              exact hins.symm
          rw [this] at hl
          simpa using List.mem_append.mp hl
        rcases hx with h1 | h2
        · exact Or.inl h1
        · exact Or.inr (by simp [h2])
      · exact Or.inr (List.mem_cons_of_mem x hr)

/-- prepareEvents stamps the caller-supplied group and device identifiers
on every event of the batch and never touches the timestamps. -/
theorem prepareEvents_fields (g dev : String) (c : Nat) (evts : List Event) :
    (∀ e ∈ (prepareEvents g dev c evts).1, e.groupID = g ∧ e.deviceID = dev) ∧
    (prepareEvents g dev c evts).1.map Event.time = evts.map Event.time := by
  induction evts generalizing c with
  | nil => simp [prepareEvents]
  | cons x rest ih =>
    unfold prepareEvents
    by_cases hv : oidValid x.id = true
    · simpa [hv] using ih c
    · simpa [hv] using ih (c + 1)

/-- C10: Place.prepare is idempotent — whenever prepare succeeds and
yields q, applying prepare to q succeeds again and returns q itself, so
the Circle, Polygon and Geo fields keep their values from the first
application. -/
theorem claim_C10_prepare_idempotent (p q : Place)
    (h : p.prepare = Except.ok q) : q.prepare = Except.ok q := by
  unfold Place.prepare at h ⊢
  rcases hc : p.circle with _ | c
  · rcases hp : p.polygon with _ | poly
    · simp [hc, hp] at h
    · rw [hc, hp, Except.ok.injEq] at h
      subst h
      simp
  · rw [hc, Except.ok.injEq] at h
    subst h
    simp

/-- Witness for C10 at the concrete place that arrives with both a circle
and a polygon. -/
theorem claim_C10_prepare_idempotent_witness :
    Place.prepare placeBothPrepared = Except.ok placeBothPrepared :=
  claim_C10_prepare_idempotent placeBoth placeBothPrepared rfl

/-- C4: a Place write (create or update) on a place carrying neither
circle nor polygon fails with the missing-geometry validation error
(`ErrBadPlaceData`) and returns before the store is reached: the whole
session state — store contents included — is unchanged, and no session is
even copied. -/
theorem claim_C4_missing_geometry_rejected (p : Place) (g : String)
    (s : SessionState) (hc : p.circle = none) (hp : p.polygon = none) :
    DB.PlaceCreate g p s = (Except.error DBError.badPlaceData, s) ∧
    Places.Update g p s = (Except.error DBError.badPlaceData, s) := by
  have hprep : p.prepare = Except.error DBError.badPlaceData := by
    unfold Place.prepare
    rw [hc, hp]
  constructor
  · unfold DB.PlaceCreate
    rw [hprep]
  · unfold Places.Update
    rw [hprep]

/-- Witness for C4 at the concrete geometry-free place over a populated
store. -/
theorem claim_C4_missing_geometry_rejected_witness :
    DB.PlaceCreate "g1" placeNone sG1 = (Except.error DBError.badPlaceData, sG1) ∧
    Places.Update "g1" placeNone sG1 = (Except.error DBError.badPlaceData, sG1) :=
  claim_C4_missing_geometry_rejected placeNone "g1" sG1 rfl rfl

/-- DB.PlaceCreate: a place document added to the store by this call is
the prepared place with its geometry fields, carrying the caller-supplied
group identifier (and possibly a generated id). -/
theorem placeCreate_new_docs (g : String) (p pp : Place) (s : SessionState)
    (hprep : p.prepare = Except.ok pp) (d : Place)
    (hd : d ∈ ((DB.PlaceCreate g p s).2).store.places)
    (hnd : d ∉ s.store.places) :
    d.circle = pp.circle ∧ d.polygon = pp.polygon ∧ d.geo = pp.geo ∧
    d.groupID = g := by
  unfold DB.PlaceCreate at hd
  rw [hprep] at hd
  dsimp only at hd
  by_cases hid : (pp.id == "") = true <;>
    simp only [hid, if_true, if_false, Bool.false_eq_true, sessionCopy,
      sessionClose] at hd <;>
  · split at hd
    next ps heq =>
      simp only at hd heq
      have hdoc := mem_insertDoc_new Place.id _ _ _ heq d (by simpa using hd)
        (by simpa using hnd)
      subst hdoc
      simp
    next e heq =>
      simp only at hd
      exact absurd (by simpa using hd) hnd

/-- Places.Update: a place document this call puts into the store carries
the prepared geometry fields and the caller-supplied group identifier. -/
theorem placesUpdate_new_docs (g : String) (p pp : Place) (s : SessionState)
    (hprep : p.prepare = Except.ok pp) (d : Place)
    (hd : d ∈ ((Places.Update g p s).2).store.places)
    (hnd : d ∉ s.store.places) :
    d.circle = pp.circle ∧ d.polygon = pp.polygon ∧ d.geo = pp.geo ∧
    d.groupID = g := by
  unfold Places.Update at hd
  rw [hprep] at hd
  dsimp only at hd
  simp only [sessionCopy, sessionClose] at hd
  split at hd
  next ps heq =>
    simp only at hd heq
    have hdoc := mem_updateById_new Place.id _ _ _ _ heq d
      (by simpa using hd) (by simpa using hnd)
    subst hdoc
    simp
  next e heq =>
    simp only at hd
    exact absurd (by simpa using hd) hnd

/-- DBDevices.Create: a device document added to the store by this call
carries the caller-supplied group identifier. -/
theorem devicesCreate_new_docs (g : String) (dev : Device)
    (s : SessionState) (d : Device)
    (hd : d ∈ ((DBDevices.Create g dev s).2).store.devices)
    (hnd : d ∉ s.store.devices) : d.groupID = g := by
  unfold DBDevices.Create at hd
  dsimp only at hd
  by_cases hid : (dev.id == "") = true <;>
    simp only [hid, if_true, if_false, Bool.false_eq_true, sessionCopy,
      sessionClose] at hd <;>
  · split at hd
    next ds heq =>
      simp only at hd heq
      have hdoc := mem_insertDoc_new Device.id _ _ _ heq d
        (by simpa using hd) (by simpa using hnd)
      subst hdoc
      simp
    next e heq =>
      simp only at hd
      exact absurd (by simpa using hd) hnd

/-- Users.Create: a user document added to the store by this call carries
exactly the group identifier the entity object arrived with (there is no
caller scope argument that could overwrite it). -/
theorem usersCreate_new_docs (u : User) (s : SessionState) (v : User)
    (hv : v ∈ ((Users.Create u s).2).store.users)
    (hnv : v ∉ s.store.users) : v.groupID = u.groupID := by
  unfold Users.Create at hv
  dsimp only at hv
  by_cases hid : (u.login == "") = true <;>
    simp only [hid, if_true, if_false, Bool.false_eq_true, sessionCopy,
      sessionClose] at hv <;>
  · split at hv
    next us heq =>
      simp only at hv heq
      have hdoc := mem_insertDoc_new User.login _ _ _ heq v
        (by simpa using hv) (by simpa using hnv)
      subst hdoc
      simp
    next e heq =>
      simp only at hv
      exact absurd (by simpa using hv) hnv

/-- Events.Create: every event document added to the store by this call
carries the caller-supplied group and device identifiers. -/
theorem eventsCreate_new_docs (g devId : String) (evts : List Event)
    (s : SessionState) (e : Event)
    (he : e ∈ ((Events.Create g devId evts s).2).store.events)
    (hne : e ∉ s.store.events) : e.groupID = g ∧ e.deviceID = devId := by
  unfold Events.Create at he
  rcases hpe : prepareEvents g devId s.oidCounter evts with ⟨objs, c⟩
  rw [hpe] at he
  dsimp only at he
  simp only [sessionCopy] at he
  rcases hins : insertManyEvents objs s.store.events with ⟨es, errOpt⟩
  rw [hins] at he
  dsimp only at he
  have hmem : e ∈ es := by
    cases errOpt <;> simpa [sessionClose] using he
  have hsrc : e ∈ s.store.events ∨ e ∈ objs := by
    refine mem_insertManyEvents ?_
    rw [hins]
    exact hmem
  rcases hsrc with hl | hr
  · exact absurd hl hne
  · have := (prepareEvents_fields g devId s.oidCounter evts).1
    rw [hpe] at this
    exact this e hr

/-- C3: when a Place write (create or update) is given both a circle and a
polygon, normalization clears the polygon, derives the indexGeometry (Geo)
field from the circle via the circle-to-polygon conversion, and retains
the circle itself unchanged — both in the result of prepare and in every
document the write puts into the store. -/
theorem claim_C3_circle_priority (p : Place) (c : Circle) (poly : Polygon)
    (g : String) (s t : SessionState) (d e : Place)
    (hc : p.circle = some c) (_hp : p.polygon = some poly)
    (hd : d ∈ ((DB.PlaceCreate g p s).2).store.places)
    (hnd : d ∉ s.store.places)
    (he : e ∈ ((Places.Update g p t).2).store.places)
    (hne : e ∉ t.store.places) :
    p.prepare = Except.ok { p with polygon := none, geo := some c.geo } ∧
    (d.circle = some c ∧ d.polygon = none ∧ d.geo = some c.geo) ∧
    (e.circle = some c ∧ e.polygon = none ∧ e.geo = some c.geo) := by
  have hprep : p.prepare = Except.ok { p with polygon := none, geo := some c.geo } := by
    unfold Place.prepare
    rw [hc]
  refine ⟨hprep, ?_, ?_⟩
  · obtain ⟨h1, h2, h3, _⟩ := placeCreate_new_docs g p _ s hprep d hd hnd
    exact ⟨by simpa [hc] using h1, by simpa using h2, by simpa using h3⟩
  · obtain ⟨h1, h2, h3, _⟩ := placesUpdate_new_docs g p _ t hprep e he hne
    exact ⟨by simpa [hc] using h1, by simpa using h2, by simpa using h3⟩

/-- Witness for C3: the concrete place that arrives with both circle and
polygon, created into the empty store and updated over the populated
store. -/
theorem claim_C3_circle_priority_witness :
    Place.prepare placeBoth = Except.ok placeBothPrepared ∧
    (placeCreatedW.circle = some circleW ∧ placeCreatedW.polygon = none ∧
      placeCreatedW.geo = some circleW.geo) ∧
    (placeCreatedW.circle = some circleW ∧ placeCreatedW.polygon = none ∧
      placeCreatedW.geo = some circleW.geo) :=
  claim_C3_circle_priority placeBoth circleW polyW "g1" sEmpty sG1
    placeCreatedW placeCreatedW rfl rfl (by decide) (by decide)
    (by decide) (by decide)

/-- C2, corrected: for the Device, Event and Place creates the persisted
group identifier equals the caller-supplied groupID argument (the field of
the arriving entity is overwritten before the insert); the user creates
(Users.Create and DB.UserCreate), however, take no groupID argument at all
and persist the group identifier the user object arrived with. -/
theorem claim_C2_amended_scope_overwrite (g devId : String) (dev : Device)
    (u u2 : User) (p : Place) (evts : List Event)
    (s1 s2 s3 s4 s5 : SessionState)
    (d : Device) (e : Event) (q : Place) (v v2 : User)
    (hd : d ∈ ((DBDevices.Create g dev s1).2).store.devices)
    (hnd : d ∉ s1.store.devices)
    (he : e ∈ ((Events.Create g devId evts s2).2).store.events)
    (hne : e ∉ s2.store.events)
    (hq : q ∈ ((DB.PlaceCreate g p s3).2).store.places)
    (hnq : q ∉ s3.store.places)
    (hv : v ∈ ((Users.Create u s4).2).store.users)
    (hnv : v ∉ s4.store.users)
    (hv2 : v2 ∈ ((DB.UserCreate u2 s5).2).store.users)
    (hnv2 : v2 ∉ s5.store.users) :
    d.groupID = g ∧ e.groupID = g ∧ q.groupID = g ∧
    v.groupID = u.groupID ∧ v2.groupID = u2.groupID := by
  refine ⟨devicesCreate_new_docs g dev s1 d hd hnd,
    (eventsCreate_new_docs g devId evts s2 e he hne).1, ?_,
    usersCreate_new_docs u s4 v hv hnv,
    usersCreate_new_docs u2 s5 v2 hv2 hnv2⟩
  rcases hpp : p.prepare with err | pp
  · have hsame : ((DB.PlaceCreate g p s3).2) = s3 := by
      unfold DB.PlaceCreate
      rw [hpp]
    rw [hsame] at hq
    exact absurd hq hnq
  · exact (placeCreate_new_docs g p pp s3 hpp q hq hnq).2.2.2

/-- Witness for the corrected C2 at concrete creates over the empty
store. -/
theorem claim_C2_amended_scope_overwrite_witness :
    deviceCreatedW.groupID = "g1" ∧ eventCreatedW.groupID = "g1" ∧
    placeCreatedW.groupID = "g1" ∧ userSpoof.groupID = userSpoof.groupID ∧
    userOther.groupID = userOther.groupID :=
  claim_C2_amended_scope_overwrite "g1" "d1" deviceSpoof userSpoof userOther
    placeBoth [eventNoTime] sEmpty sEmpty sEmpty sEmpty sEmpty
    deviceCreatedW eventCreatedW placeCreatedW userSpoof userOther
    (by decide) (by decide) (by decide) (by decide) (by decide) (by decide)
    (by decide) (by decide) (by decide) (by decide)

/-- Counterexample to C2 as stated: the user create has no caller-supplied
groupID argument and does not overwrite the arriving field — two calls to
Users.Create identical except for the group identifier the entity arrives
with ("spoofed" versus "other") persist those two different values, so no
single caller-supplied argument value can equal the persisted groupID in
both runs, refuting "whatever groupID value the entity object carries on
arrival, the groupID persisted to the store equals the caller-supplied
groupID argument ... for every entity type including User".  DB.UserCreate,
the other user-create revision, persists the arriving value the same
way. -/
theorem claim_C2_counterexample :
    ((Users.Create userSpoof sEmpty).2.store.users.map User.groupID
      = ["spoofed"]) ∧
    ((Users.Create userOther sEmpty).2.store.users.map User.groupID
      = ["other"]) ∧
    ((DB.UserCreate userSpoof sEmpty).2.store.users.map User.groupID
      = ["spoofed"]) ∧
    ¬ ∃ gArg : String,
      ((Users.Create userSpoof sEmpty).2.store.users.map User.groupID
        = [gArg]) ∧
      ((Users.Create userOther sEmpty).2.store.users.map User.groupID
        = [gArg]) := by
  refine ⟨rfl, rfl, rfl, ?_⟩
  rintro ⟨gArg, h1, h2⟩
  have e1 : (["spoofed"] : List String) = [gArg] := h1
  have e2 : (["other"] : List String) = [gArg] := h2
  simp only [List.cons.injEq, and_true] at e1 e2
  exact absurd (e1.trans e2.symm) (by decide)

/-- C1: for every entity type, when every stored record with the probed
primary id belongs to group g1 and the caller asks under a different group
g2, the get operation answers exactly NotFound — not the record, and not
some distinct forbidden error (the embedded error type, taken from the
source, has no forbidden value at all) — because the store query conjoins
the primary id with the caller-supplied group. The Users leg runs against
the spec-modelled Users.Get, since no group-scoped user get exists in the
source. -/
theorem claim_C1_cross_group_get_notFound (g1 g2 xu xd xp xe dev : String)
    (s : SessionState) (hne : g1 ≠ g2)
    (hU : ∀ u ∈ s.store.users, u.login = xu → u.groupID = g1)
    (hD : ∀ d ∈ s.store.devices, d.id = xd → d.groupID = g1)
    (hP : ∀ p ∈ s.store.places, p.id = xp → p.groupID = g1)
    (hhex : isObjectIdHex xe = true)
    (hE : ∀ e ∈ s.store.events, e.id = objectIdHex xe → e.groupID = g1) :
    (Users.Get g2 xu s).1 = Except.error DBError.notFound ∧
    (DBDevices.Get g2 xd s).1 = Except.error DBError.notFound ∧
    (DB.PlaceGet g2 xp s).1 = Except.error DBError.notFound ∧
    (Events.Get g2 dev xe s).1 = Except.error DBError.notFound := by
  refine ⟨?_, ?_, ?_, ?_⟩
  · have hfind : findOne (fun u => u.login == xu && u.groupID == g2)
        s.store.users = Except.error DBError.notFound := by
      apply findOne_none_of_false
      intro u hu
      by_cases hl : u.login = xu
      · have hg := hU u hu hl
        simp [hl, hg, hne]
      · simp [hl]
    simp [Users.Get, sessionCopy, hfind, Except.map]
  · have hfind : findOne (fun d => d.id == xd && d.groupID == g2)
        s.store.devices = Except.error DBError.notFound := by
      apply findOne_none_of_false
      intro d hd
      by_cases hl : d.id = xd
      · have hg := hD d hd hl
        simp [hl, hg, hne]
      · simp [hl]
    simp [DBDevices.Get, sessionCopy, hfind, Except.map]
  · have hfind : findOne (fun p => p.id == xp && p.groupID == g2)
        s.store.places = Except.error DBError.notFound := by
      apply findOne_none_of_false
      intro p hp
      by_cases hl : p.id = xp
      · have hg := hP p hp hl
        simp [hl, hg, hne]
      · simp [hl]
    simp [DB.PlaceGet, sessionCopy, hfind, Except.map]
  · have hfind : findOne
        (fun e => e.id == objectIdHex xe && e.groupID == g2 && e.deviceID == dev)
        s.store.events = Except.error DBError.notFound := by
      apply findOne_none_of_false
      intro e he
      by_cases hl : e.id = objectIdHex xe
      · have hg := hE e he hl
        simp [hl, hg, hne]
      · simp [hl]
    simp [Events.Get, sessionCopy, hhex, hfind, Except.map]

/-- Witness for C1 over the populated one-record-per-collection store,
probing under group g2 the ids that exist under g1. -/
theorem claim_C1_cross_group_get_notFound_witness :
    (Users.Get "g2" "a@x.com" sG1).1 = Except.error DBError.notFound ∧
    (DBDevices.Get "g2" "d1" sG1).1 = Except.error DBError.notFound ∧
    (DB.PlaceGet "g2" "p1" sG1).1 = Except.error DBError.notFound ∧
    (Events.Get "g2" "d1" hex24 sG1).1 = Except.error DBError.notFound :=
  claim_C1_cross_group_get_notFound "g1" "g2" "a@x.com" "d1" "p1" hex24 "d1"
    sG1 (by decide) (by decide) (by decide) (by decide) (by decide) (by decide)

/-- C5: the Login operations of Users and Devices are keyed only by the
global primary identifier — whichever document the id-only store query
yields is returned whole, whatever group it belongs to and with no group
condition in the query — and, there being no projection, the result
carries the stored password digest (and the group field) that get and list
project away. -/
theorem claim_C5_login_global_with_digest (x y : String) (s : SessionState)
    (u : User) (d : Device)
    (hu : s.store.users.find? (fun v => v.login == x) = some u)
    (hd : s.store.devices.find? (fun v => v.id == y) = some d) :
    (Users.Login x s).1 = Except.ok u ∧
    (Devices.Login y s).1 = Except.ok d := by
  constructor
  · simp [Users.Login, sessionCopy, findOne, hu]
  · simp [Devices.Login, sessionCopy, findOne, hd]

/-- Witness for C5: the stored user and device come back whole, digests
included. -/
theorem claim_C5_login_global_with_digest_witness :
    (Users.Login "a@x.com" sG1).1 = Except.ok userG1 ∧
    (Devices.Login "d1" sG1).1 = Except.ok deviceG1 :=
  claim_C5_login_global_with_digest "a@x.com" "d1" sG1 userG1 deviceG1
    (by decide) (by decide)

/-- C6 (code bug): the loop in Events.Create never touches the timestamp
field — the map of timestamps of the prepared batch equals that of the
arriving batch for every input — so an event arriving with the zero
timestamp is inserted with the zero timestamp even though the server clock
(sNow.now = 777) was available: the documented current-server-time default
is never applied.  (The id half of the claim does hold: the concrete event
below arrives without a valid id and is inserted with a generated one.) -/
theorem claim_C6_create_leaves_zero_time :
    (∀ g d c evts,
      ((prepareEvents g d c evts).1.map Event.time) = evts.map Event.time) ∧
    sNow.now = 777 ∧ eventNoTime.time = 0 ∧
    (Events.Create "g1" "d1" [eventNoTime] sNow).1 = Except.ok () ∧
    ((Events.Create "g1" "d1" [eventNoTime] sNow).2).store.events.map Event.time
      = [0] := by
  refine ⟨?_, rfl, rfl, rfl, rfl⟩
  intro g d c evts
  exact (prepareEvents_fields g d c evts).2

/-- C7 (code bug): Events.Devices runs its distinct over the key
"deviceID", which names no field of the stored event documents (the bson
tag of the device field is "deviceId", and mongo keys are case
sensitive), so the result is the empty list for every group and every
store — even over a store that visibly holds an event of group g1 from
device d1. -/
theorem claim_C7_devices_always_empty :
    (∀ g s, (Events.Devices g s).1 = []) ∧
    (Events.Devices "g1" sG1).1 = [] ∧
    eventG1 ∈ sG1.store.events ∧ eventG1.groupID = "g1" ∧
    eventG1.deviceID = "d1" := by
  refine ⟨?_, rfl, by decide, rfl, rfl⟩
  intro g s
  unfold Events.Devices distinctStrings
  dsimp only
  have h : List.filterMap (fun e => e.bsonString "deviceID")
      ((sessionCopy s).store.events.filter (fun e => e.groupID == g)) = [] := by
    rw [List.filterMap_eq_nil_iff]
    intro e he
    simp [Event.bsonString]
  rw [h]
  rfl

/-- C8 (code bug): device read projections.  DBDevices.Get and
DBDevices.List exclude both "groupId" and "password" while returning id,
displayName and deviceType; but DB.DeviceList projects with only
"groupId": 0, so the stored password digest comes back in its list
results. -/
theorem claim_C8_device_list_password_leak :
    deviceG1.password = "bcrypt-dev" ∧
    ((DB.DeviceList "g1" sG1).1.map Device.password) = ["bcrypt-dev"] ∧
    ((DBDevices.List "g1" sG1).1.map Device.password) = [""] ∧
    ((DBDevices.List "g1" sG1).1.map Device.groupID) = [""] ∧
    (DBDevices.Get "g1" "d1" sG1).1 = Except.ok
      { id := "d1", groupID := "", name := "phone", type := "gps",
        password := "" } :=
  ⟨rfl, rfl, rfl, rfl, rfl⟩

/-- C9 (code bug): DB.PlaceCreate balances its session lease on every
path (openSessions is unchanged whatever branch is taken), but Events.Get
validates the id only after copying the session and returns
ErrBadObjectId without closing it: after the call on a malformed id the
open-lease count has grown by one. -/
theorem claim_C9_lease_leak_on_bad_objectid :
    (∀ g p s, ((DB.PlaceCreate g p s).2).openSessions = s.openSessions) ∧
    sEmpty.openSessions = 0 ∧
    (Events.Get "g1" "d1" "zz" sEmpty).1 = Except.error DBError.badObjectId ∧
    ((Events.Get "g1" "d1" "zz" sEmpty).2).openSessions = 1 := by
  refine ⟨?_, rfl, rfl, rfl⟩
  intro g p s
  unfold DB.PlaceCreate
  rcases hpp : p.prepare with err | pp
  · rfl
  · dsimp only
    by_cases hid : (pp.id == "") = true <;>
      simp only [hid, if_true, if_false, Bool.false_eq_true] <;>
    · split
      next ps heq => simp [sessionCopy, sessionClose]
      next e heq => simp [sessionCopy, sessionClose]

end GeoTrace
